import Mathlib

/-!
Verification of the taxonomy-aware record flattening in ostua_mammals.

Shallow embedding of the two converters of the repository:

* `src/json_to_csv.py` — `split_taxonomy` and the per-prediction loop of `main`
  (summary row, classification rows, detection rows);
* `src/json_to_sqlite.py` — `parse_tax_string` and `insert_image_and_relations`,
  together with the NOT NULL constraint on `images.filepath` declared in
  `CREATE_TABLES_SQL`.

JSON values decoded by Python's `json.load` are modeled by `JVal` (strings,
ints, floats — represented exactly as rationals —, booleans and null).  A JSON
object key that may be absent is an `Option`: `none` means the key is missing,
`some .jnull` means the key is present with value `null`; this mirrors the
difference between `d.get(k, default)` returning the default versus a stored
`None`.

Python's `str.split(sep)` for a one-character separator is modeled by the
structural `splitCharAux`, so that all definitions evaluate by kernel
reduction on concrete inputs.
-/

set_option autoImplicit false

/-- A JSON-decoded Python value. Floats are modeled exactly as rationals;
the claims under study never depend on floating-point rounding, only on
whether a conversion happens at all and on small exact values. -/
inductive JVal where
  | jstr : String → JVal
  | jint : Int → JVal
  | jfloat : ℚ → JVal
  | jbool : Bool → JVal
  | jnull : JVal
deriving DecidableEq, Repr

/-- One element of the `detections` list of a prediction record.  Each field
is `none` when the corresponding key is absent from the JSON object. -/
structure Det where
  category : Option JVal := none
  label : Option JVal := none
  conf : Option JVal := none
  bbox : Option (List JVal) := none
deriving DecidableEq, Repr

/-- One element of the `predictions` list (a PredictionRecord).  `classes` and
`scores` model `pred["classifications"]["classes"]` / `["scores"]`, both
defaulting to `[]` when the key chain is absent, exactly as the two scripts
default them with `.get(..., {})` / `.get(..., [])`. -/
structure PredRec where
  filepath : Option JVal := none
  country : Option JVal := none
  model_version : Option JVal := none
  prediction : Option JVal := none
  prediction_score : Option JVal := none
  prediction_source : Option JVal := none
  classes : List String := []
  scores : List JVal := []
  detections : List Det := []
deriving DecidableEq, Repr

/-- Python `pred.get(key, "")`: the stored value when the key is present
(even if it is `null`), the empty string otherwise. -/
def csvGet (o : Option JVal) : JVal :=
  o.getD (JVal.jstr "")

/-- Python `pred.get(key)`: the stored value when the key is present, `None`
otherwise.  Both a missing key and a stored `null` become `None` in Python;
`pyGet` sends both to `.jnull`. -/
def pyGet (o : Option JVal) : JVal :=
  o.getD JVal.jnull

/-- Structural model of Python `str.split(c)` on a list of characters: split
at every occurrence of `sep`, keeping empty segments, so that the result on
an empty input is `[""]` and separators at the ends produce empty segments. -/
def splitCharAux (sep : Char) : List Char → List Char → List String
  | [], acc => [String.mk acc.reverse]
  | c :: rest, acc =>
    if c = sep then String.mk acc.reverse :: splitCharAux sep rest []
    else splitCharAux sep rest (c :: acc)

/-- Python `s.split(";")`. -/
def pySplitSemi (s : String) : List String :=
  splitCharAux ';' s.toList []

/-- Decimal digit string to its numeric value; `none` on any non-digit.
The empty list evaluates to `0` (callers guard emptiness as Python does). -/
def digitsVal : List Char → Option Nat
  | [] => some 0
  | c :: rest =>
    if c.isDigit then (digitsVal rest).map (fun n => (c.toNat - 48) * 10 ^ rest.length + n)
    else none

/-- Model of Python `float(s)` on a string, restricted to plain signed
decimal literals (optional sign, digits, optional fractional part).  Python
additionally accepts exponents, `inf`/`nan` and surrounding whitespace; the
claims under study depend only on failure for non-numeric strings and exact
conversion of decimal forms, so those extra forms are not modeled. -/
def parseDec (s : String) : Option ℚ :=
  let csSigned := s.toList
  let signBody : Bool × List Char :=
    match csSigned with
    | '-' :: rest => (true, rest)
    | '+' :: rest => (false, rest)
    | _ => (false, csSigned)
  let body := signBody.2
  let magnitude : Option ℚ :=
    match splitCharAux '.' body [] with
    | [ip] =>
      if ip.isEmpty then none
      else (digitsVal (ip.toList)).map (fun n => (n : ℚ))
    | [ip, fp] =>
      if ip.isEmpty && fp.isEmpty then none
      else
        match digitsVal ip.toList, digitsVal fp.toList with
        | some a, some b => some ((a : ℚ) + (b : ℚ) / ((10 : ℚ) ^ fp.length))
        | _, _ => none
    | _ => none
  match magnitude with
  | none => none
  | some q => some (if signBody.1 then -q else q)

/-- Model of Python `float(v)` on a JSON-decoded value: identity on floats,
exact widening on ints, numeric on booleans (`float(True) = 1.0`), decimal
parse on strings (ValueError on failure), TypeError on `None`. -/
def pyFloat : JVal → Except String ℚ
  | JVal.jint n => Except.ok (n : ℚ)
  | JVal.jfloat q => Except.ok q
  | JVal.jbool b => Except.ok (if b then 1 else 0)
  | JVal.jnull => Except.error "TypeError: float() argument must be a string or a real number"
  | JVal.jstr s =>
    match parseDec s with
    | some q => Except.ok q
    | none => Except.error "ValueError: could not convert string to float"

/-! ## Taxonomy parsers -/

/-- The dictionary returned by `split_taxonomy` in `json_to_csv.py`
(8 named fields). -/
structure Taxonomy where
  class_uuid : String
  kingdom : String
  tax1 : String
  tax2 : String
  tax3 : String
  tax4 : String
  tax5 : String
  common_name : String
deriving DecidableEq, Repr

/-- The list `parts` of `split_taxonomy` after the padding statement
`parts += [""] * (9 - len(parts))` (`json_to_csv.py` lines 21-23).
Nat subtraction models Python's empty list on a negative repeat count. -/
def csvPaddedParts (s : String) : List String :=
  let parts := pySplitSemi s
  parts ++ List.replicate (9 - parts.length) ""

/-- Model of `split_taxonomy` from `json_to_csv.py` lines 13-33: split on `;`, pad the
part list to at least 9 entries, return the dict of parts 0-7.  The guard
`len(parts) > 7` on `common_name` is kept verbatim from line 32. -/
def split_taxonomy (s : String) : Taxonomy :=
  let parts := csvPaddedParts s
  { class_uuid := parts.getD 0 ""
    kingdom := parts.getD 1 ""
    tax1 := parts.getD 2 ""
    tax2 := parts.getD 3 ""
    tax3 := parts.getD 4 ""
    tax4 := parts.getD 5 ""
    tax5 := parts.getD 6 ""
    common_name := if 7 < parts.length then parts.getD 7 "" else "" }

/-- The ordered key/value entries of the dict literal returned by
`split_taxonomy` (Python dicts preserve insertion order). -/
def split_taxonomy_fields (s : String) : List (String × String) :=
  let t := split_taxonomy s
  [("class_uuid", t.class_uuid), ("kingdom", t.kingdom), ("tax1", t.tax1),
   ("tax2", t.tax2), ("tax3", t.tax3), ("tax4", t.tax4), ("tax5", t.tax5),
   ("common_name", t.common_name)]

/-- The 7-tuple returned by `parse_tax_string` in `json_to_sqlite.py`.
`none` models Python `None` (bound as SQL NULL). -/
structure TaxTuple where
  uuid : Option String
  tax_class : Option String
  tax_order : Option String
  tax_family : Option String
  tax_genus : Option String
  tax_species : Option String
  common_name : Option String
deriving DecidableEq, Repr

/-- The all-`None` taxonomy tuple assigned when a class string is falsy
(`json_to_sqlite.py` line 102). -/
def TaxTuple.allNone : TaxTuple :=
  ⟨none, none, none, none, none, none, none⟩

/-- The list `parts` of `parse_tax_string` after
`parts += [None] * (7 - len(parts))` (`json_to_sqlite.py` lines 69-71): the
split segments (present values) padded with `None` to at least 7 entries. -/
def sqlitePaddedParts (s : String) : List (Option String) :=
  let parts := (pySplitSemi s).map some
  parts ++ List.replicate (7 - parts.length) none

/-- Model of `parse_tax_string` from `json_to_sqlite.py` lines 67-72:
`tuple(parts[:7])` of the padded part list. -/
def parse_tax_string (s : String) : TaxTuple :=
  let parts := sqlitePaddedParts s
  { uuid := parts.getD 0 none
    tax_class := parts.getD 1 none
    tax_order := parts.getD 2 none
    tax_family := parts.getD 3 none
    tax_genus := parts.getD 4 none
    tax_species := parts.getD 5 none
    common_name := parts.getD 6 none }

/-! ## Bbox padding -/

/-- The CSV script's bbox list after `bbox += [""] * (4 - len(bbox))`
(`json_to_csv.py` lines 99 and 146). -/
def csvPadBbox (bbox : List JVal) : List JVal :=
  bbox ++ List.replicate (4 - bbox.length) (JVal.jstr "")

/-- The SQLite script's `(bbox + [None]*4)[:4]` (`json_to_sqlite.py`
line 116). -/
def sqlitePadBbox (bbox : List JVal) : List JVal :=
  (bbox ++ List.replicate 4 JVal.jnull).take 4

/-- Python `d.get("bbox", ["", "", "", ""])` followed by the CSV padding
(`json_to_csv.py` lines 145-146). -/
def csvDetBboxList (d : Det) : List JVal :=
  csvPadBbox (d.bbox.getD (List.replicate 4 (JVal.jstr "")))

/-- Python `d.get("bbox", [None, None, None, None])` followed by the SQLite
truncating pad (`json_to_sqlite.py` lines 115-116). -/
def sqliteDetBboxList (d : Det) : List JVal :=
  sqlitePadBbox (d.bbox.getD (List.replicate 4 JVal.jnull))

/-! ## CSV sink rows (`json_to_csv.py`, body of `main`) -/

/-- One row of `predictions_summary.csv` (lines 102-121), before CSV text
serialization. -/
structure CsvSummaryRow where
  filepath : JVal
  country : JVal
  model_version : JVal
  prediction : JVal
  prediction_score : JVal
  prediction_source : JVal
  top_class : String
  top_score : JVal
  second_class : String
  second_score : JVal
  num_classes : Nat
  num_detections : Nat
  detection_label : JVal
  detection_conf : JVal
  bbox_x : JVal
  bbox_y : JVal
  bbox_w : JVal
  bbox_h : JVal
deriving DecidableEq, Repr

/-- One row of `classifications.csv` (lines 127-141). -/
structure CsvClsRow where
  filepath : JVal
  country : JVal
  model_version : JVal
  class_rank : Nat
  class_uuid : String
  kingdom : String
  tax1 : String
  tax2 : String
  tax3 : String
  tax4 : String
  tax5 : String
  common_name : String
  score : JVal
deriving DecidableEq, Repr

/-- One row of `detections.csv` (lines 147-159). -/
structure CsvDetRow where
  filepath : JVal
  country : JVal
  model_version : JVal
  detection_index : Nat
  category : JVal
  label : JVal
  conf : JVal
  bbox_x : JVal
  bbox_y : JVal
  bbox_w : JVal
  bbox_h : JVal
deriving DecidableEq, Repr

/-- Python `det0.get(key, "")` where `det0` is the first detection if any, else the
empty dict (`json_to_csv.py` lines 94-96). -/
def det0Get (dets : List Det) (f : Det → Option JVal) : JVal :=
  match dets.head? with
  | some d => csvGet (f d)
  | none => JVal.jstr ""

/-- The padded bbox of the first detection, or of the default
`["", "", "", ""]` when there is no detection (lines 97-99). -/
def det0BboxList (dets : List Det) : List JVal :=
  match dets.head? with
  | some d => csvDetBboxList d
  | none => csvPadBbox (List.replicate 4 (JVal.jstr ""))

/-- The summary row written for one prediction (`json_to_csv.py`
lines 73-121). -/
def csvSummary (pred : PredRec) : CsvSummaryRow :=
  { filepath := csvGet pred.filepath
    country := csvGet pred.country
    model_version := csvGet pred.model_version
    prediction := csvGet pred.prediction
    prediction_score := csvGet pred.prediction_score
    prediction_source := csvGet pred.prediction_source
    top_class := pred.classes.getD 0 ""
    top_score := pred.scores.getD 0 (JVal.jstr "")
    second_class := pred.classes.getD 1 ""
    second_score := pred.scores.getD 1 (JVal.jstr "")
    num_classes := max pred.classes.length pred.scores.length
    num_detections := pred.detections.length
    detection_label := det0Get pred.detections Det.label
    detection_conf := det0Get pred.detections Det.conf
    bbox_x := (det0BboxList pred.detections).getD 0 (JVal.jstr "")
    bbox_y := (det0BboxList pred.detections).getD 1 (JVal.jstr "")
    bbox_w := (det0BboxList pred.detections).getD 2 (JVal.jstr "")
    bbox_h := (det0BboxList pred.detections).getD 3 (JVal.jstr "") }

/-- The classification row for loop index `i` and class string `cls`
(`json_to_csv.py` lines 124-141). -/
def csvClsRow (fp co mv : JVal) (scores : List JVal) (i : Nat) (cls : String) : CsvClsRow :=
  let tax := split_taxonomy cls
  { filepath := fp
    country := co
    model_version := mv
    class_rank := i + 1
    class_uuid := tax.class_uuid
    kingdom := tax.kingdom
    tax1 := tax.tax1
    tax2 := tax.tax2
    tax3 := tax.tax3
    tax4 := tax.tax4
    tax5 := tax.tax5
    common_name := tax.common_name
    score := scores.getD i (JVal.jstr "") }

/-- The loop `for i, cls in enumerate(classes)` (`json_to_csv.py`
line 124): note that it ranges over `classes` only, not over
`range(max(len(classes), len(scores)))`. -/
def csvClsRowsAux (fp co mv : JVal) (scores : List JVal) : Nat → List String → List CsvClsRow
  | _, [] => []
  | i, c :: cs => csvClsRow fp co mv scores i c :: csvClsRowsAux fp co mv scores (i + 1) cs

/-- All classification rows the CSV sink writes for one prediction. -/
def csvClsRows (pred : PredRec) : List CsvClsRow :=
  csvClsRowsAux (csvGet pred.filepath) (csvGet pred.country) (csvGet pred.model_version)
    pred.scores 0 pred.classes

/-- The detection row for loop index `i` (`json_to_csv.py` lines 144-159). -/
def csvDetRow (fp co mv : JVal) (i : Nat) (d : Det) : CsvDetRow :=
  let bb := csvDetBboxList d
  { filepath := fp
    country := co
    model_version := mv
    detection_index := i + 1
    category := csvGet d.category
    label := csvGet d.label
    conf := csvGet d.conf
    bbox_x := bb.getD 0 (JVal.jstr "")
    bbox_y := bb.getD 1 (JVal.jstr "")
    bbox_w := bb.getD 2 (JVal.jstr "")
    bbox_h := bb.getD 3 (JVal.jstr "") }

/-- The loop `for i, d in enumerate(detections)` (`json_to_csv.py`
line 144). -/
def csvDetRowsAux (fp co mv : JVal) : Nat → List Det → List CsvDetRow
  | _, [] => []
  | i, d :: ds => csvDetRow fp co mv i d :: csvDetRowsAux fp co mv (i + 1) ds

/-- All detection rows the CSV sink writes for one prediction. -/
def csvDetRows (pred : PredRec) : List CsvDetRow :=
  csvDetRowsAux (csvGet pred.filepath) (csvGet pred.country) (csvGet pred.model_version)
    0 pred.detections

/-! ## Relational sink (`json_to_sqlite.py`, `insert_image_and_relations`) -/

/-- A row of the `images` table (surrogate key plus the six bound scalar
columns; `created_at` has a DB-side default and is not modeled). -/
structure ImageRowDB where
  id : Nat
  filepath : JVal
  country : JVal
  prediction : JVal
  prediction_score : JVal
  prediction_source : JVal
  model_version : JVal
deriving DecidableEq, Repr

/-- A row of the `classifications` table (the surrogate `id` primary key and
`created_at` are DB-generated and not modeled). -/
structure ClsRowDB where
  image_id : Nat
  class_uuid : Option String
  tax_class : Option String
  tax_order : Option String
  tax_family : Option String
  tax_genus : Option String
  tax_species : Option String
  common_name : Option String
  score : Option ℚ
  rank_integer : Nat
deriving DecidableEq, Repr

/-- A row of the `detections` table. -/
structure DetRowDB where
  image_id : Nat
  category : JVal
  label : JVal
  conf : JVal
  bbox_x : JVal
  bbox_y : JVal
  bbox_w : JVal
  bbox_h : JVal
deriving DecidableEq, Repr

/-- The SQLite database state: the three tables and the next AUTOINCREMENT
surrogate key of `images`. -/
structure DB where
  nextId : Nat
  images : List ImageRowDB
  classifications : List ClsRowDB
  detections : List DetRowDB
deriving DecidableEq, Repr

/-- An empty database, as produced by `CREATE_TABLES_SQL` on a fresh file. -/
def dbEmpty : DB :=
  ⟨0, [], [], []⟩

/-- The image row bound by the INSERT of `json_to_sqlite.py` lines 83-86,
with surrogate key `iid`. -/
def sqliteImageRow (iid : Nat) (pred : PredRec) : ImageRowDB :=
  { id := iid
    filepath := pyGet pred.filepath
    country := pyGet pred.country
    prediction := pyGet pred.prediction
    prediction_score := pyGet pred.prediction_score
    prediction_source := pyGet pred.prediction_source
    model_version := pyGet pred.model_version }

/-- One iteration of the classification loop (`json_to_sqlite.py`
lines 95-107): `class_str = classes[i] if i < len(classes) else None`,
`score = float(scores[i]) if i < len(scores) else None` (propagating the
`float` exception), the falsy check `if class_str:` (false for both `None`
and the empty string), and the bound row with `rank_integer = i`. -/
def buildClsRow (iid : Nat) (classes : List String) (scores : List JVal) (i : Nat) :
    Except String ClsRowDB :=
  let class_str : Option String := classes[i]?
  let tax : TaxTuple :=
    match class_str with
    | some str => if str = "" then TaxTuple.allNone else parse_tax_string str
    | none => TaxTuple.allNone
  match scores[i]? with
  | none =>
    Except.ok
      { image_id := iid, class_uuid := tax.uuid, tax_class := tax.tax_class
        tax_order := tax.tax_order, tax_family := tax.tax_family
        tax_genus := tax.tax_genus, tax_species := tax.tax_species
        common_name := tax.common_name, score := none, rank_integer := i }
  | some v =>
    match pyFloat v with
    | Except.error e => Except.error e
    | Except.ok q =>
      Except.ok
        { image_id := iid, class_uuid := tax.uuid, tax_class := tax.tax_class
          tax_order := tax.tax_order, tax_family := tax.tax_family
          tax_genus := tax.tax_genus, tax_species := tax.tax_species
          common_name := tax.common_name, score := some q, rank_integer := i }

/-- The loop `for i in range(n)` over the index list, stopping at the first
raised exception. -/
def buildClsRows (iid : Nat) (classes : List String) (scores : List JVal) :
    List Nat → Except String (List ClsRowDB)
  | [] => Except.ok []
  | i :: rest =>
    match buildClsRow iid classes scores i, buildClsRows iid classes scores rest with
    | Except.ok r, Except.ok rs => Except.ok (r :: rs)
    | Except.error e, _ => Except.error e
    | Except.ok _, Except.error e => Except.error e

/-- The classification rows inserted for one prediction
(`json_to_sqlite.py` lines 90-107): `n = max(len(classes), len(scores))`,
loop over `range(n)`. -/
def sqliteClsRowsOf (iid : Nat) (pred : PredRec) : Except String (List ClsRowDB) :=
  buildClsRows iid pred.classes pred.scores
    (List.range (max pred.classes.length pred.scores.length))

/-- The detection row bound by the INSERT of `json_to_sqlite.py`
lines 111-120. -/
def buildDetRowDB (iid : Nat) (d : Det) : DetRowDB :=
  let bb := sqliteDetBboxList d
  { image_id := iid
    category := pyGet d.category
    label := pyGet d.label
    conf := pyGet d.conf
    bbox_x := bb.getD 0 JVal.jnull
    bbox_y := bb.getD 1 JVal.jnull
    bbox_w := bb.getD 2 JVal.jnull
    bbox_h := bb.getD 3 JVal.jnull }

/-- The detection rows inserted for one prediction. -/
def sqliteDetRowsOf (iid : Nat) (pred : PredRec) : List DetRowDB :=
  pred.detections.map (buildDetRowDB iid)

/-- Model of `insert_image_and_relations` (`json_to_sqlite.py` lines 74-122) against
the schema of `CREATE_TABLES_SQL`: binding Python `None` for the NOT NULL
column `images.filepath` makes the parent INSERT raise `IntegrityError`
before any row of the record is stored; otherwise the image row is inserted
first, `image_id = cur.lastrowid` is the fresh surrogate key, and every
classification and detection row is inserted carrying that key.  A raised
exception (modeled by `Except.error`) leaves no committed rows, since the
per-file `conn.commit()` in `process_file` is never reached. -/
def insert_image_and_relations (db : DB) (pred : PredRec) : Except String (DB × Nat) :=
  if pyGet pred.filepath = JVal.jnull then
    Except.error "IntegrityError: NOT NULL constraint failed: images.filepath"
  else
    match sqliteClsRowsOf db.nextId pred with
    | Except.error e => Except.error e
    | Except.ok clsRows =>
      Except.ok
        ({ nextId := db.nextId + 1
           images := db.images ++ [sqliteImageRow db.nextId pred]
           classifications := db.classifications ++ clsRows
           detections := db.detections ++ sqliteDetRowsOf db.nextId pred }, db.nextId)

/-! ## Normalized comparison of the two sinks' detection rows

The CSV sink fills absent values with the empty string, the relational sink
with SQL NULL; `normJ` identifies the two representations so the shared
fields of the detection rows can be compared. -/

/-- Send the CSV empty-string filler to `null`; identity otherwise. -/
def normJ (v : JVal) : JVal :=
  if v = JVal.jstr "" then JVal.jnull else v

/-- The shared, normalized fields of a CSV detection row (category, label,
conf, four bbox components). -/
def csvDetNorm (r : CsvDetRow) : List JVal :=
  [normJ r.category, normJ r.label, normJ r.conf,
   normJ r.bbox_x, normJ r.bbox_y, normJ r.bbox_w, normJ r.bbox_h]

/-- The shared, normalized fields of a relational detection row. -/
def dbDetNorm (r : DetRowDB) : List JVal :=
  [normJ r.category, normJ r.label, normJ r.conf,
   normJ r.bbox_x, normJ r.bbox_y, normJ r.bbox_w, normJ r.bbox_h]

/-! ## Concrete prediction records used as test vectors -/

/-- A record whose `scores` list is longer than its `classes` list. -/
def predScoresLonger : PredRec :=
  { filepath := some (JVal.jstr "f"), classes := [], scores := [JVal.jint 2] }

/-- The database state after inserting `predScoresLonger` into `dbEmpty`. -/
def dbScoresLonger : DB :=
  ⟨1, [⟨0, JVal.jstr "f", JVal.jnull, JVal.jnull, JVal.jnull, JVal.jnull, JVal.jnull⟩],
   [⟨0, none, none, none, none, none, none, none, some ((2 : Int) : ℚ), 0⟩], []⟩

/-- A record with one 8-segment class string and two integer scores. -/
def predEightSeg : PredRec :=
  { filepath := some (JVal.jstr "f"), classes := ["a;b;c;d;e;f;g;h"],
    scores := [JVal.jint 1, JVal.jint 2] }

/-- A record with a single class and no scores. -/
def predOneClass : PredRec :=
  { filepath := some (JVal.jstr "f"), classes := ["x"], scores := [] }

/-- The classification rows the relational sink builds for `predOneClass`
under image id 0. -/
def rowsOneClass : List ClsRowDB :=
  [⟨0, some "x", none, none, none, none, none, none, none, 0⟩]

/-- A record whose score is a non-numeric string. -/
def predBadScore : PredRec :=
  { filepath := some (JVal.jstr "f"), classes := ["u"], scores := [JVal.jstr "abc"] }

/-- A record with one class and one integer score. -/
def predIntScore : PredRec :=
  { filepath := some (JVal.jstr "f"), classes := ["c"], scores := [JVal.jint 3] }

/-- The classification rows the relational sink builds for `predIntScore`
under image id 0. -/
def rowsIntScore : List ClsRowDB :=
  [⟨0, some "c", none, none, none, none, none, none, some ((3 : Int) : ℚ), 0⟩]

/-- The scenario of the spec's testable property for the relational sink:
two classifications and one detection. -/
def predScenario : PredRec :=
  { filepath := some (JVal.jstr "g.jpg")
    classes := ["u1;a;b;c;d;e;f", "u2;a;b;c;d;e;f"]
    scores := [JVal.jint 9, JVal.jint 1]
    detections :=
      [{ category := some (JVal.jstr "1"), label := some (JVal.jstr "animal")
         conf := some (JVal.jint 95)
         bbox := some [JVal.jint 10, JVal.jint 20, JVal.jint 30, JVal.jint 40] }] }

/-- The database state after inserting `predScenario` into `dbEmpty`. -/
def dbScenario : DB :=
  ⟨1, [⟨0, JVal.jstr "g.jpg", JVal.jnull, JVal.jnull, JVal.jnull, JVal.jnull, JVal.jnull⟩],
   [⟨0, some "u1", some "a", some "b", some "c", some "d", some "e", some "f",
     some ((9 : Int) : ℚ), 0⟩,
    ⟨0, some "u2", some "a", some "b", some "c", some "d", some "e", some "f",
     some ((1 : Int) : ℚ), 1⟩],
   [⟨0, JVal.jstr "1", JVal.jstr "animal", JVal.jint 95,
     JVal.jint 10, JVal.jint 20, JVal.jint 30, JVal.jint 40⟩]⟩

/-- A record with no `filepath` key at all. -/
def predNoFilepath : PredRec :=
  { country := some (JVal.jstr "ES"), classes := ["x"], scores := [JVal.jint 1] }

/-! ## Helper lemmas on list indexing -/

theorem getD_oob {α : Type} : ∀ (l : List α) (i : Nat) (d : α), l.length ≤ i → l.getD i d = d
  | [], _, _, _ => by simp [List.getD]
  | _ :: _, 0, _, h => by simp at h
  | _ :: l, i + 1, d, h => by
    simpa using getD_oob l i d (by simpa using h)

theorem getD_append_left {α : Type} :
    ∀ (l l2 : List α) (i : Nat) (d : α), i < l.length → (l ++ l2).getD i d = l.getD i d
  | [], _, i, _, h => by simp at h
  | _ :: _, _, 0, _, _ => rfl
  | _ :: l, l2, i + 1, d, h => by
    simpa using getD_append_left l l2 i d (by simpa using h)

theorem getD_replicate {α : Type} :
    ∀ (k i : Nat) (x d : α), i < k → (List.replicate k x).getD i d = x
  | _ + 1, 0, _, _, _ => rfl
  | k + 1, i + 1, x, d, h => by
    simpa [List.replicate] using getD_replicate k i x d (by omega)

theorem getD_append_replicate {α : Type} :
    ∀ (l : List α) (k i : Nat) (x d : α), l.length ≤ i → i < l.length + k →
      (l ++ List.replicate k x).getD i d = x
  | [], k, i, x, d, _, h2 => by
    simpa using getD_replicate k i x d (by simpa using h2)
  | _ :: _, _, 0, _, _, h1, _ => by simp at h1
  | _ :: l, k, i + 1, x, d, h1, h2 => by
    simpa using getD_append_replicate l k i x d (by simpa using h1) (by simp at h2 ⊢; omega)

theorem map_some_getD {α : Type} : ∀ (l : List α) (i : Nat), (l.map some).getD i none = l[i]?
  | [], i => by simp [List.getD]
  | _ :: _, 0 => by simp
  | _ :: l, i + 1 => by simpa using map_some_getD l i

/-! ## Characterization of the two padded part lists -/

theorem csvPaddedParts_length (s : String) :
    (csvPaddedParts s).length = max 9 (pySplitSemi s).length := by
  simp [csvPaddedParts]
  omega

theorem csvPaddedParts_getD (s : String) (i : Nat) (h : i < 9) :
    (csvPaddedParts s).getD i "" = (pySplitSemi s).getD i "" := by
  by_cases hl : i < (pySplitSemi s).length
  · exact getD_append_left _ _ i _ hl
  · rw [show csvPaddedParts s =
        pySplitSemi s ++ List.replicate (9 - (pySplitSemi s).length) "" from rfl]
    rw [getD_append_replicate _ _ i _ _ (by omega) (by omega),
      getD_oob _ i _ (by omega)]

theorem sqlitePaddedParts_length (s : String) :
    (sqlitePaddedParts s).length = max 7 (pySplitSemi s).length := by
  simp [sqlitePaddedParts]
  omega

theorem sqlitePaddedParts_getD (s : String) (i : Nat) (h : i < 7) :
    (sqlitePaddedParts s).getD i none = (pySplitSemi s)[i]? := by
  by_cases hl : i < (pySplitSemi s).length
  · rw [show sqlitePaddedParts s =
        (pySplitSemi s).map some ++ List.replicate (7 - ((pySplitSemi s).map some).length) none
        from rfl]
    rw [getD_append_left _ _ i _ (by simpa using hl), map_some_getD]
  · rw [show sqlitePaddedParts s =
        (pySplitSemi s).map some ++ List.replicate (7 - ((pySplitSemi s).map some).length) none
        from rfl]
    rw [getD_append_replicate _ _ i _ _ (by simp; omega) (by simp; omega),
      List.getElem?_eq_none (by omega)]

theorem getElem?_eq_some_getD {α : Type} (l : List α) (i : Nat) (d : α) (h : i < l.length) :
    l[i]? = some (l.getD i d) := by
  rw [List.getElem?_eq_getElem h, List.getD_eq_getElem l d h]

/-! ## Claim C4 -/

/-- Claim C4 counterexample: on the 9-segment input
`"a;b;c;d;e;f;g;h;i"` the CSV taxonomy parser does not return 9 fields; it
returns the 8-entry dict, and the 9th segment `"i"` appears in no field
value (the relational parser even stops after 7 segments). -/
theorem split_taxonomy_not_nine_fields :
    (split_taxonomy_fields "a;b;c;d;e;f;g;h;i").length = 8 ∧
    (split_taxonomy_fields "a;b;c;d;e;f;g;h;i").length ≠ 9 ∧
    "i" ∉ (split_taxonomy_fields "a;b;c;d;e;f;g;h;i").map Prod.snd ∧
    (parse_tax_string "a;b;c;d;e;f;g;h;i").common_name = some "g" := by
  decide

/-- Claim C4 (amended): for every taxonomy string with `k` segments, the CSV
parser returns exactly 8 fields, field `i` (0-based) being segment `i` when
`i < k` and the empty string otherwise, discarding segments past the 8th;
the relational parser returns exactly 7 fields, field `i` being segment `i`
when `i < k` and `None` otherwise, discarding segments past the 7th. -/
theorem taxonomy_field_characterization (s : String) :
    split_taxonomy s =
      { class_uuid := (pySplitSemi s).getD 0 "", kingdom := (pySplitSemi s).getD 1 ""
        tax1 := (pySplitSemi s).getD 2 "", tax2 := (pySplitSemi s).getD 3 ""
        tax3 := (pySplitSemi s).getD 4 "", tax4 := (pySplitSemi s).getD 5 ""
        tax5 := (pySplitSemi s).getD 6 "", common_name := (pySplitSemi s).getD 7 "" } ∧
    (split_taxonomy_fields s).length = 8 ∧
    parse_tax_string s =
      { uuid := (pySplitSemi s)[0]?, tax_class := (pySplitSemi s)[1]?
        tax_order := (pySplitSemi s)[2]?, tax_family := (pySplitSemi s)[3]?
        tax_genus := (pySplitSemi s)[4]?, tax_species := (pySplitSemi s)[5]?
        common_name := (pySplitSemi s)[6]? } := by
  have h9 : (csvPaddedParts s).length = max 9 (pySplitSemi s).length := csvPaddedParts_length s
  refine ⟨?_, rfl, ?_⟩
  · simp only [split_taxonomy, Taxonomy.mk.injEq]
    refine ⟨csvPaddedParts_getD s 0 (by omega), csvPaddedParts_getD s 1 (by omega),
      csvPaddedParts_getD s 2 (by omega), csvPaddedParts_getD s 3 (by omega),
      csvPaddedParts_getD s 4 (by omega), csvPaddedParts_getD s 5 (by omega),
      csvPaddedParts_getD s 6 (by omega), ?_⟩
    rw [if_pos (by omega)]
    exact csvPaddedParts_getD s 7 (by omega)
  · simp only [parse_tax_string, TaxTuple.mk.injEq]
    exact ⟨sqlitePaddedParts_getD s 0 (by omega), sqlitePaddedParts_getD s 1 (by omega),
      sqlitePaddedParts_getD s 2 (by omega), sqlitePaddedParts_getD s 3 (by omega),
      sqlitePaddedParts_getD s 4 (by omega), sqlitePaddedParts_getD s 5 (by omega),
      sqlitePaddedParts_getD s 6 (by omega)⟩

/-! ## Claim C7 -/

/-- Claim C7: both taxonomy parsers are total.  After padding, every index
the CSV parser reads (0-7) and every index the relational parser reads (0-6)
is in bounds for any input string, and even the empty string degrades to a
fully padded record rather than an error. -/
theorem taxonomy_split_total (s : String) :
    7 < (csvPaddedParts s).length ∧ 6 < (sqlitePaddedParts s).length ∧
    split_taxonomy "" = ⟨"", "", "", "", "", "", "", ""⟩ ∧
    parse_tax_string "" = ⟨some "", none, none, none, none, none, none⟩ := by
  refine ⟨?_, ?_, by decide, by decide⟩
  · rw [csvPaddedParts_length]; omega
  · rw [sqlitePaddedParts_length]; omega

/-! ## Claim C9 -/

/-- Claim C9: when a class string has more than 7 segments, the relational
sink's parser keeps exactly the first 7: its `common_name` slot receives the
7th segment, and everything past the 7th — including the 8th segment, which
is where the CSV sink's 9-slot layout keeps the actual common name — is
silently discarded. -/
theorem parse_tax_truncates_at_seven (s : String) (h : 7 < (pySplitSemi s).length) :
    parse_tax_string s =
      { uuid := some ((pySplitSemi s).getD 0 ""), tax_class := some ((pySplitSemi s).getD 1 "")
        tax_order := some ((pySplitSemi s).getD 2 "")
        tax_family := some ((pySplitSemi s).getD 3 "")
        tax_genus := some ((pySplitSemi s).getD 4 "")
        tax_species := some ((pySplitSemi s).getD 5 "")
        common_name := some ((pySplitSemi s).getD 6 "") } ∧
    (split_taxonomy s).common_name = (pySplitSemi s).getD 7 "" := by
  constructor
  · simp only [parse_tax_string, TaxTuple.mk.injEq]
    refine ⟨?_, ?_, ?_, ?_, ?_, ?_, ?_⟩ <;>
      rw [sqlitePaddedParts_getD s _ (by omega), getElem?_eq_some_getD _ _ "" (by omega)]
  · have h9 : (csvPaddedParts s).length = max 9 (pySplitSemi s).length := csvPaddedParts_length s
    simp only [split_taxonomy]
    rw [if_pos (by omega)]
    exact csvPaddedParts_getD s 7 (by omega)

/-- Witness for claim C9 at the concrete 9-segment string
`"a;b;c;d;e;f;g;h;i"`. -/
theorem parse_tax_truncates_at_seven_witness :
    parse_tax_string "a;b;c;d;e;f;g;h;i" =
      { uuid := some ((pySplitSemi "a;b;c;d;e;f;g;h;i").getD 0 "")
        tax_class := some ((pySplitSemi "a;b;c;d;e;f;g;h;i").getD 1 "")
        tax_order := some ((pySplitSemi "a;b;c;d;e;f;g;h;i").getD 2 "")
        tax_family := some ((pySplitSemi "a;b;c;d;e;f;g;h;i").getD 3 "")
        tax_genus := some ((pySplitSemi "a;b;c;d;e;f;g;h;i").getD 4 "")
        tax_species := some ((pySplitSemi "a;b;c;d;e;f;g;h;i").getD 5 "")
        common_name := some ((pySplitSemi "a;b;c;d;e;f;g;h;i").getD 6 "") } ∧
    (split_taxonomy "a;b;c;d;e;f;g;h;i").common_name =
      (pySplitSemi "a;b;c;d;e;f;g;h;i").getD 7 "" :=
  parse_tax_truncates_at_seven "a;b;c;d;e;f;g;h;i" (by decide)

/-! ## Claim C6 -/

/-- Claim C6: bbox padding in both sinks.  For a bbox shorter than 4 the four
stored components are the input entries followed by empty (CSV) or null
(relational) fillers; for a bbox longer than 4 the stored components are
exactly the first 4 entries, never an error.  The relational sink's padded
bbox always has length exactly 4. -/
theorem bbox_padding_policy (b : List JVal) :
    (b.length < 4 →
      [(csvPadBbox b).getD 0 (JVal.jstr ""), (csvPadBbox b).getD 1 (JVal.jstr ""),
       (csvPadBbox b).getD 2 (JVal.jstr ""), (csvPadBbox b).getD 3 (JVal.jstr "")] =
        b ++ List.replicate (4 - b.length) (JVal.jstr "") ∧
      sqlitePadBbox b = b ++ List.replicate (4 - b.length) JVal.jnull) ∧
    (4 < b.length →
      [(csvPadBbox b).getD 0 (JVal.jstr ""), (csvPadBbox b).getD 1 (JVal.jstr ""),
       (csvPadBbox b).getD 2 (JVal.jstr ""), (csvPadBbox b).getD 3 (JVal.jstr "")] =
        b.take 4 ∧
      sqlitePadBbox b = b.take 4) ∧
    (sqlitePadBbox b).length = 4 := by
  rcases b with _ | ⟨x, _ | ⟨y, _ | ⟨z, _ | ⟨w, rest⟩⟩⟩⟩
  · exact ⟨fun _ => ⟨rfl, rfl⟩, fun h => absurd h (by simp), rfl⟩
  · exact ⟨fun _ => ⟨rfl, rfl⟩, fun h => absurd h (by simp), rfl⟩
  · exact ⟨fun _ => ⟨rfl, rfl⟩, fun h => absurd h (by simp), rfl⟩
  · exact ⟨fun _ => ⟨rfl, rfl⟩, fun h => absurd h (by simp), rfl⟩
  · have h0 : 4 - (x :: y :: z :: w :: rest).length = 0 := by simp
    refine ⟨fun h => absurd h (by simp), fun _ => ⟨?_, ?_⟩, ?_⟩
    · simp [csvPadBbox, h0, List.getD]
    · simp [sqlitePadBbox, List.take]
    · simp [sqlitePadBbox]

/-- Witness for claim C6: a 1-element bbox is padded to 4, a 5-element bbox
is cut to its first 4 entries. -/
theorem bbox_padding_policy_witness :
    ([(csvPadBbox [JVal.jint 1]).getD 0 (JVal.jstr ""),
      (csvPadBbox [JVal.jint 1]).getD 1 (JVal.jstr ""),
      (csvPadBbox [JVal.jint 1]).getD 2 (JVal.jstr ""),
      (csvPadBbox [JVal.jint 1]).getD 3 (JVal.jstr "")] =
        [JVal.jint 1] ++ List.replicate (4 - [JVal.jint 1].length) (JVal.jstr "") ∧
      sqlitePadBbox [JVal.jint 1] =
        [JVal.jint 1] ++ List.replicate (4 - [JVal.jint 1].length) JVal.jnull) ∧
    ([(csvPadBbox [JVal.jint 1, JVal.jint 2, JVal.jint 3, JVal.jint 4, JVal.jint 5]).getD 0
        (JVal.jstr ""),
      (csvPadBbox [JVal.jint 1, JVal.jint 2, JVal.jint 3, JVal.jint 4, JVal.jint 5]).getD 1
        (JVal.jstr ""),
      (csvPadBbox [JVal.jint 1, JVal.jint 2, JVal.jint 3, JVal.jint 4, JVal.jint 5]).getD 2
        (JVal.jstr ""),
      (csvPadBbox [JVal.jint 1, JVal.jint 2, JVal.jint 3, JVal.jint 4, JVal.jint 5]).getD 3
        (JVal.jstr "")] =
        [JVal.jint 1, JVal.jint 2, JVal.jint 3, JVal.jint 4, JVal.jint 5].take 4 ∧
      sqlitePadBbox [JVal.jint 1, JVal.jint 2, JVal.jint 3, JVal.jint 4, JVal.jint 5] =
        [JVal.jint 1, JVal.jint 2, JVal.jint 3, JVal.jint 4, JVal.jint 5].take 4) :=
  ⟨(bbox_padding_policy [JVal.jint 1]).1 (by decide),
   (bbox_padding_policy [JVal.jint 1, JVal.jint 2, JVal.jint 3, JVal.jint 4, JVal.jint 5]).2.1
     (by decide)⟩

/-! ## Lemmas on the CSV sink's row loops -/

theorem csvClsRowsAux_length (fp co mv : JVal) (sc : List JVal) :
    ∀ (cs : List String) (i : Nat), (csvClsRowsAux fp co mv sc i cs).length = cs.length
  | [], _ => rfl
  | _ :: cs, i => by
    simpa [csvClsRowsAux] using csvClsRowsAux_length fp co mv sc cs (i + 1)

theorem csvClsRowsAux_rank (fp co mv : JVal) (sc : List JVal) :
    ∀ (cs : List String) (i : Nat),
      (csvClsRowsAux fp co mv sc i cs).map (fun r => r.class_rank) =
        (List.range cs.length).map (fun j => i + j + 1)
  | [], _ => rfl
  | c :: cs, i => by
    simp only [csvClsRowsAux, List.map_cons, csvClsRow, List.length_cons]
    rw [csvClsRowsAux_rank fp co mv sc cs (i + 1), List.range_succ_eq_map, List.map_cons,
      List.map_map]
    refine congrArg₂ _ (by omega) ?_
    exact List.map_congr_left (fun a _ => by simp [Function.comp]; omega)

theorem csvClsRowsAux_score (fp co mv : JVal) (sc : List JVal) :
    ∀ (cs : List String) (i : Nat),
      (csvClsRowsAux fp co mv sc i cs).map (fun r => r.score) =
        (List.range cs.length).map (fun j => sc.getD (i + j) (JVal.jstr ""))
  | [], _ => rfl
  | c :: cs, i => by
    simp only [csvClsRowsAux, List.map_cons, csvClsRow, List.length_cons]
    rw [csvClsRowsAux_score fp co mv sc cs (i + 1), List.range_succ_eq_map, List.map_cons,
      List.map_map]
    refine congrArg₂ _ (by rw [Nat.add_zero]) ?_
    exact List.map_congr_left (fun a _ => by simp [Function.comp]; rw [Nat.add_assoc, Nat.add_comm 1 a])

theorem csvClsRowsAux_filepath (fp co mv : JVal) (sc : List JVal) :
    ∀ (cs : List String) (i : Nat) (r : CsvClsRow),
      r ∈ csvClsRowsAux fp co mv sc i cs → r.filepath = fp
  | [], _, _, h => absurd h (by simp [csvClsRowsAux])
  | c :: cs, i, r, h => by
    rcases List.mem_cons.mp h with h1 | h1
    · subst h1; rfl
    · exact csvClsRowsAux_filepath fp co mv sc cs (i + 1) r h1

theorem csvDetRowsAux_conf (fp co mv : JVal) :
    ∀ (ds : List Det) (i : Nat),
      (csvDetRowsAux fp co mv i ds).map (fun r => r.conf) = ds.map (fun d => csvGet d.conf)
  | [], _ => rfl
  | d :: ds, i => by
    simpa [csvDetRowsAux, csvDetRow] using csvDetRowsAux_conf fp co mv ds (i + 1)

theorem csvDetRowsAux_filepath (fp co mv : JVal) :
    ∀ (ds : List Det) (i : Nat) (r : CsvDetRow),
      r ∈ csvDetRowsAux fp co mv i ds → r.filepath = fp
  | [], _, _, h => absurd h (by simp [csvDetRowsAux])
  | d :: ds, i, r, h => by
    rcases List.mem_cons.mp h with h1 | h1
    · subst h1; rfl
    · exact csvDetRowsAux_filepath fp co mv ds (i + 1) r h1

/-! ## Lemmas on the relational sink's classification loop -/

theorem buildClsRow_ok (iid : Nat) (cl : List String) (s : List JVal) (i : Nat) (r : ClsRowDB)
    (h : buildClsRow iid cl s i = Except.ok r) :
    r.image_id = iid ∧ r.rank_integer = i ∧
    r.score = (match s[i]? with
      | some v => (pyFloat v).toOption
      | none => none) ∧
    (cl.length ≤ i → r.class_uuid = none ∧ r.common_name = none) := by
  unfold buildClsRow at h
  cases hs : s[i]? with
  | none =>
    rw [hs] at h
    dsimp only at h
    cases h
    refine ⟨rfl, rfl, rfl, fun hle => ?_⟩
    have hc : cl[i]? = (none : Option String) := List.getElem?_eq_none hle
    exact ⟨by simp [hc, TaxTuple.allNone], by simp [hc, TaxTuple.allNone]⟩
  | some v =>
    rw [hs] at h
    dsimp only at h
    cases hv : pyFloat v with
    | error e => rw [hv] at h; exact absurd h (by simp)
    | ok q =>
      rw [hv] at h
      cases h
      refine ⟨rfl, rfl, by simp [hv, Except.toOption], fun hle => ?_⟩
      have hc : cl[i]? = (none : Option String) := List.getElem?_eq_none hle
      exact ⟨by simp [hc, TaxTuple.allNone], by simp [hc, TaxTuple.allNone]⟩

theorem buildClsRows_ok (iid : Nat) (cl : List String) (s : List JVal) :
    ∀ (l : List Nat) (rows : List ClsRowDB), buildClsRows iid cl s l = Except.ok rows →
      rows.length = l.length ∧
      rows.map (fun r => r.rank_integer) = l ∧
      (∀ r ∈ rows, r.image_id = iid) ∧
      rows.map (fun r => r.score) =
        l.map (fun i => match s[i]? with
          | some v => (pyFloat v).toOption
          | none => none)
  | [], rows, h => by cases h; simp
  | i :: rest, rows, h => by
    unfold buildClsRows at h
    cases h1 : buildClsRow iid cl s i with
    | error e => rw [h1] at h; exact absurd h (by simp)
    | ok r =>
      cases h2 : buildClsRows iid cl s rest with
      | error e => rw [h1, h2] at h; exact absurd h (by simp)
      | ok rs =>
        rw [h1, h2] at h
        cases h
        obtain ⟨ih1, ih2, ih3, ih4⟩ := buildClsRows_ok iid cl s rest rs h2
        obtain ⟨hr1, hr2, hr3, _⟩ := buildClsRow_ok iid cl s i r h1
        refine ⟨by simp [ih1], by simp [ih2, hr2], ?_, by simp [ih4, hr3]⟩
        intro x hx
        rcases List.mem_cons.mp hx with h3 | h3
        · subst h3; exact hr1
        · exact ih3 x h3

/-- Unfolding of a successful `insert_image_and_relations`. -/
theorem insert_ok_spec (db : DB) (pred : PredRec) (db2 : DB) (iid : Nat)
    (h : insert_image_and_relations db pred = Except.ok (db2, iid)) :
    iid = db.nextId ∧
    ∃ rows, sqliteClsRowsOf db.nextId pred = Except.ok rows ∧
      db2 = { nextId := db.nextId + 1
              images := db.images ++ [sqliteImageRow db.nextId pred]
              classifications := db.classifications ++ rows
              detections := db.detections ++ sqliteDetRowsOf db.nextId pred } := by
  unfold insert_image_and_relations at h
  split at h
  · exact absurd h (by simp)
  · cases hr : sqliteClsRowsOf db.nextId pred with
    | error e => rw [hr] at h; exact absurd h (by simp)
    | ok rows =>
      rw [hr, Except.ok.injEq, Prod.mk.injEq] at h
      exact ⟨h.2.symm, rows, rfl, h.1.symm⟩

/-! ## Claim C1 -/

/-- Claim C1 counterexample: for a record with no classes and one score, the
CSV sink's `num_classes` field is 1 (the maximum of the two lengths) but the
flattener emits 0 classification rows, not `num_classes` rows; the extra
score position yields no row at all in the CSV sink. -/
theorem csv_cls_count_ne_num_classes :
    (csvSummary predScoresLonger).num_classes = 1 ∧
    (csvClsRows predScoresLonger).length = 0 ∧
    (csvClsRows predScoresLonger).length ≠ (csvSummary predScoresLonger).num_classes := by
  decide

/-- Claim C1 (amended): for every record the relational sink inserts
successfully, the `num_classes` field of the CSV summary equals
`max(len(classes), len(scores))` and the relational sink inserts exactly that
many classification rows (extra score positions yielding rows with null
class fields), but the CSV sink emits exactly `len(classes)` classification
rows, dropping positions where only a score exists. -/
theorem cls_row_counts_per_sink (db : DB) (pred : PredRec) (db2 : DB) (iid : Nat)
    (h : insert_image_and_relations db pred = Except.ok (db2, iid)) :
    (csvClsRows pred).length = pred.classes.length ∧
    (csvSummary pred).num_classes = max pred.classes.length pred.scores.length ∧
    db2.classifications.length =
      db.classifications.length + max pred.classes.length pred.scores.length ∧
    (∀ i r, pred.classes.length ≤ i →
      buildClsRow iid pred.classes pred.scores i = Except.ok r →
      r.class_uuid = none ∧ r.common_name = none) := by
  obtain ⟨hiid, rows, hrows, hdb⟩ := insert_ok_spec db pred db2 iid h
  obtain ⟨hlen, -, -, -⟩ := buildClsRows_ok _ _ _ _ rows hrows
  refine ⟨csvClsRowsAux_length _ _ _ _ pred.classes 0, rfl, ?_, ?_⟩
  · rw [hdb]
    simp only [List.length_append]
    rw [hlen, List.length_range]
  · intro i r hle hok
    exact (buildClsRow_ok iid pred.classes pred.scores i r hok).2.2.2 hle

/-- Witness for claim C1 at `predScoresLonger` inserted into the empty
database. -/
theorem cls_row_counts_per_sink_witness :
    (csvClsRows predScoresLonger).length = predScoresLonger.classes.length ∧
    (csvSummary predScoresLonger).num_classes =
      max predScoresLonger.classes.length predScoresLonger.scores.length ∧
    dbScoresLonger.classifications.length =
      dbEmpty.classifications.length +
        max predScoresLonger.classes.length predScoresLonger.scores.length := by
  have h := cls_row_counts_per_sink dbEmpty predScoresLonger dbScoresLonger 0 rfl
  exact ⟨h.1, h.2.1, h.2.2.1⟩

/-! ## Claim C3 -/

/-- Claim C3 counterexample: for a record with one class, the relational
sink's `rank_integer` sequence is `[0]` (0-based loop index), not the 1-based
sequence `[1]` the claim requires. -/
theorem rank_integer_zero_based :
    (sqliteClsRowsOf 0 predOneClass).toOption.map
        (fun l => l.map (fun r => r.rank_integer)) = some [0] ∧
    (csvSummary predOneClass).num_classes = 1 ∧
    some [(0 : Nat)] ≠ some [1] := by
  decide

/-- Claim C3 (amended): the CSV sink's `class_rank` values form the 1-based
sequence `1, …, len(classes)` (not `num_classes` when scores is longer),
while the relational sink's `rank_integer` values form the 0-based sequence
`0, …, num_classes - 1`. -/
theorem rank_sequences_per_sink (pred : PredRec) (iid : Nat) (rows : List ClsRowDB)
    (h : sqliteClsRowsOf iid pred = Except.ok rows) :
    (csvClsRows pred).map (fun r => r.class_rank) =
      (List.range pred.classes.length).map (fun j => j + 1) ∧
    rows.map (fun r => r.rank_integer) =
      List.range (max pred.classes.length pred.scores.length) := by
  constructor
  · have h0 := csvClsRowsAux_rank (csvGet pred.filepath) (csvGet pred.country)
      (csvGet pred.model_version) pred.scores pred.classes 0
    simpa [csvClsRows] using h0
  · exact (buildClsRows_ok iid _ _ _ rows h).2.1

/-- Witness for claim C3 at `predOneClass` with image id 0. -/
theorem rank_sequences_per_sink_witness :
    (csvClsRows predOneClass).map (fun r => r.class_rank) =
      (List.range predOneClass.classes.length).map (fun j => j + 1) ∧
    rowsOneClass.map (fun r => r.rank_integer) =
      List.range (max predOneClass.classes.length predOneClass.scores.length) :=
  rank_sequences_per_sink predOneClass 0 rowsOneClass rfl

/-! ## Claim C5 -/

/-- Claim C5 counterexample: the CSV sink passes the non-numeric score
`"abc"` through unchanged, but the relational sink's flattener applies
`float()` to it and raises, so the value is validated and converted rather
than passed through. -/
theorem sqlite_score_float_validation :
    (csvClsRows predBadScore).map (fun r => r.score) = [JVal.jstr "abc"] ∧
    (csvSummary predBadScore).top_score = JVal.jstr "abc" ∧
    sqliteClsRowsOf 0 predBadScore =
      Except.error "ValueError: could not convert string to float" :=
  ⟨rfl, rfl, rfl⟩

/-- Claim C5 (amended): the CSV sink passes every value through exactly as
provided (scores, conf, prediction_score); the relational sink passes conf
and prediction_score through unchanged, but converts each present
classification score with Python `float()` — raising on non-convertible
values — instead of passing it through. -/
theorem value_passthrough_per_sink (pred : PredRec) (iid : Nat) (rows : List ClsRowDB)
    (h : sqliteClsRowsOf iid pred = Except.ok rows) :
    (csvClsRows pred).map (fun r => r.score) =
      (List.range pred.classes.length).map (fun j => pred.scores.getD j (JVal.jstr "")) ∧
    (csvDetRows pred).map (fun r => r.conf) = pred.detections.map (fun d => csvGet d.conf) ∧
    (sqliteDetRowsOf iid pred).map (fun r => r.conf) =
      pred.detections.map (fun d => pyGet d.conf) ∧
    (csvSummary pred).prediction_score = csvGet pred.prediction_score ∧
    (sqliteImageRow iid pred).prediction_score = pyGet pred.prediction_score ∧
    rows.map (fun r => r.score) =
      (List.range (max pred.classes.length pred.scores.length)).map
        (fun i => match pred.scores[i]? with
          | some v => (pyFloat v).toOption
          | none => none) := by
  refine ⟨?_, ?_, ?_, rfl, rfl, ?_⟩
  · have h0 := csvClsRowsAux_score (csvGet pred.filepath) (csvGet pred.country)
      (csvGet pred.model_version) pred.scores pred.classes 0
    simpa [csvClsRows] using h0
  · exact csvDetRowsAux_conf _ _ _ pred.detections 0
  · rw [sqliteDetRowsOf, List.map_map]
    rfl
  · exact (buildClsRows_ok iid _ _ _ rows h).2.2.2

/-- Witness for claim C5 at `predIntScore` with image id 0: the CSV row
keeps the integer score while the relational row holds its `float()`
conversion. -/
theorem value_passthrough_per_sink_witness :
    (csvClsRows predIntScore).map (fun r => r.score) =
      (List.range predIntScore.classes.length).map
        (fun j => predIntScore.scores.getD j (JVal.jstr "")) ∧
    rowsIntScore.map (fun r => r.score) =
      (List.range (max predIntScore.classes.length predIntScore.scores.length)).map
        (fun i => match predIntScore.scores[i]? with
          | some v => (pyFloat v).toOption
          | none => none) := by
  have h := value_passthrough_per_sink predIntScore 0 rowsIntScore rfl
  exact ⟨h.1, h.2.2.2.2.2⟩

/-! ## Claim C2 -/

theorem normJ_get (o : Option JVal) : normJ (csvGet o) = normJ (pyGet o) := by
  cases o with
  | none => decide
  | some v => rfl

theorem bbox_components_norm : ∀ (b : List JVal),
    [normJ ((csvPadBbox b).getD 0 (JVal.jstr "")), normJ ((csvPadBbox b).getD 1 (JVal.jstr "")),
     normJ ((csvPadBbox b).getD 2 (JVal.jstr "")), normJ ((csvPadBbox b).getD 3 (JVal.jstr ""))] =
    [normJ ((sqlitePadBbox b).getD 0 JVal.jnull), normJ ((sqlitePadBbox b).getD 1 JVal.jnull),
     normJ ((sqlitePadBbox b).getD 2 JVal.jnull), normJ ((sqlitePadBbox b).getD 3 JVal.jnull)]
  | [] => by decide
  | [v0] => by
    simp [csvPadBbox, sqlitePadBbox, normJ, List.getD]
  | [v0, v1] => by
    simp [csvPadBbox, sqlitePadBbox, normJ, List.getD]
  | [v0, v1, v2] => by
    simp [csvPadBbox, sqlitePadBbox, normJ, List.getD]
  | v0 :: v1 :: v2 :: v3 :: rest => by
    have h0 : 4 - (v0 :: v1 :: v2 :: v3 :: rest).length = 0 := by simp
    simp [csvPadBbox, sqlitePadBbox, h0, List.getD, List.take]

theorem detRowNorm_eq (fp co mv : JVal) (i iid : Nat) (d : Det) :
    csvDetNorm (csvDetRow fp co mv i d) = dbDetNorm (buildDetRowDB iid d) := by
  obtain ⟨cat, lab, cf, bb⟩ := d
  have h1 := normJ_get cat
  have h2 := normJ_get lab
  have h3 := normJ_get cf
  cases bb with
  | none =>
    simp only [csvDetNorm, dbDetNorm, csvDetRow, buildDetRowDB, csvDetBboxList,
      sqliteDetBboxList, Option.getD_none, List.cons.injEq, and_true]
    exact ⟨h1, h2, h3, by decide, by decide, by decide, by decide⟩
  | some b =>
    have hb := bbox_components_norm b
    simp only [List.cons.injEq, and_true] at hb
    simp only [csvDetNorm, dbDetNorm, csvDetRow, buildDetRowDB, csvDetBboxList,
      sqliteDetBboxList, Option.getD_some, List.cons.injEq, and_true]
    exact ⟨h1, h2, h3, hb.1, hb.2.1, hb.2.2.1, hb.2.2.2⟩

theorem csvDetRowsAux_norm (fp co mv : JVal) (iid : Nat) :
    ∀ (ds : List Det) (i : Nat),
      (csvDetRowsAux fp co mv i ds).map csvDetNorm = (ds.map (buildDetRowDB iid)).map dbDetNorm
  | [], _ => rfl
  | d :: ds, i => by
    simp only [csvDetRowsAux, List.map_cons]
    rw [detRowNorm_eq fp co mv i iid d, csvDetRowsAux_norm fp co mv iid ds (i + 1)]

/-- Claim C2 counterexample: on a record with one 8-segment class string and
two integer scores the two sinks' classification flattenings disagree in row
count (1 vs 2), in rank (1-based 1 vs 0-based 0), in the common-name slot
(8th segment `"h"` vs 7th segment `"g"`), so they are not extensionally
equal. -/
theorem sink_flattening_divergence :
    (csvClsRows predEightSeg).length = 1 ∧
    (sqliteClsRowsOf 0 predEightSeg).toOption.map (fun l => l.length) = some 2 ∧
    (csvClsRows predEightSeg).map (fun r => r.class_rank) = [1] ∧
    (sqliteClsRowsOf 0 predEightSeg).toOption.map
      (fun l => l.map (fun r => r.rank_integer)) = some [0, 1] ∧
    (csvClsRows predEightSeg).map (fun r => r.common_name) = ["h"] ∧
    (sqliteClsRowsOf 0 predEightSeg).toOption.map
      (fun l => l.map (fun r => r.common_name)) = some [some "g", none] ∧
    (1 : Nat) ≠ 2 := by
  decide

/-- Claim C2 (amended): the two sinks do produce the same detection rows up
to the empty-string vs null representation — same count, and pairwise-equal
category, label, conf and the four padded bbox components, in input order —
but their classification flattenings are not extensionally equal. -/
theorem det_rows_agree_up_to_null (pred : PredRec) (iid : Nat) :
    (csvDetRows pred).map csvDetNorm = (sqliteDetRowsOf iid pred).map dbDetNorm :=
  csvDetRowsAux_norm (csvGet pred.filepath) (csvGet pred.country) (csvGet pred.model_version)
    iid pred.detections 0

/-! ## Claim C8 -/

/-- Claim C8: on every successful insertion, the image row (with the fresh
surrogate key) is appended to `images`, exactly `max(len(classes),
len(scores))` classification rows and one detection row per input detection
are stored, and every newly stored child row carries exactly the surrogate
key of that image row — so no child row references a non-existent image. -/
theorem relational_referential_integrity (db : DB) (pred : PredRec) (db2 : DB) (iid : Nat)
    (h : insert_image_and_relations db pred = Except.ok (db2, iid)) :
    db2.images = db.images ++ [sqliteImageRow iid pred] ∧
    (sqliteImageRow iid pred).id = iid ∧
    db2.images.length = db.images.length + 1 ∧
    db2.classifications.length =
      db.classifications.length + max pred.classes.length pred.scores.length ∧
    db2.detections.length = db.detections.length + pred.detections.length ∧
    (∀ r ∈ db2.classifications, r ∈ db.classifications ∨ r.image_id = iid) ∧
    (∀ r ∈ db2.detections, r ∈ db.detections ∨ r.image_id = iid) := by
  obtain ⟨hiid, rows, hrows, hdb⟩ := insert_ok_spec db pred db2 iid h
  subst hiid
  obtain ⟨hlen, -, hmem, -⟩ := buildClsRows_ok _ _ _ _ rows hrows
  subst hdb
  refine ⟨rfl, rfl, by simp, ?_, ?_, ?_, ?_⟩
  · simp only [List.length_append]
    rw [hlen, List.length_range]
  · simp [sqliteDetRowsOf]
  · intro r hr
    rcases List.mem_append.mp hr with h1 | h1
    · exact Or.inl h1
    · exact Or.inr (hmem r h1)
  · intro r hr
    rcases List.mem_append.mp hr with h1 | h1
    · exact Or.inl h1
    · right
      obtain ⟨d, -, rfl⟩ := List.mem_map.mp h1
      rfl

/-- Witness for claim C8: the spec's scenario (2 classifications, 1
detection) inserted into the empty database yields 1 image row, 2
classification rows and 1 detection row. -/
theorem relational_referential_integrity_witness :
    dbScenario.images = dbEmpty.images ++ [sqliteImageRow 0 predScenario] ∧
    dbScenario.classifications.length =
      dbEmpty.classifications.length +
        max predScenario.classes.length predScenario.scores.length ∧
    dbScenario.detections.length =
      dbEmpty.detections.length + predScenario.detections.length := by
  have h := relational_referential_integrity dbEmpty predScenario dbScenario 0 rfl
  exact ⟨h.1, h.2.2.2.1, h.2.2.2.2.1⟩

/-! ## Claim C10 -/

/-- Claim C10: a record with no `filepath` key makes the relational sink bind
NULL for the NOT NULL column `images.filepath`, so the insert fails with a
constraint violation and no rows for the record are stored, while the CSV
sink writes the record with an empty filepath string on the summary row and
on every child row. -/
theorem missing_filepath_behavior (db : DB) (pred : PredRec) (h : pred.filepath = none) :
    insert_image_and_relations db pred =
      Except.error "IntegrityError: NOT NULL constraint failed: images.filepath" ∧
    (csvSummary pred).filepath = JVal.jstr "" ∧
    (∀ r ∈ csvClsRows pred, r.filepath = JVal.jstr "") ∧
    (∀ r ∈ csvDetRows pred, r.filepath = JVal.jstr "") := by
  refine ⟨?_, ?_, ?_, ?_⟩
  · simp [insert_image_and_relations, pyGet, h]
  · simp [csvSummary, csvGet, h]
  · intro r hr
    have h0 := csvClsRowsAux_filepath (csvGet pred.filepath) (csvGet pred.country)
      (csvGet pred.model_version) pred.scores pred.classes 0 r hr
    rw [h0, h]
    rfl
  · intro r hr
    have h0 := csvDetRowsAux_filepath (csvGet pred.filepath) (csvGet pred.country)
      (csvGet pred.model_version) pred.detections 0 r hr
    rw [h0, h]
    rfl

/-- Witness for claim C10 at `predNoFilepath` against the empty database. -/
theorem missing_filepath_behavior_witness :
    insert_image_and_relations dbEmpty predNoFilepath =
      Except.error "IntegrityError: NOT NULL constraint failed: images.filepath" ∧
    (csvSummary predNoFilepath).filepath = JVal.jstr "" := by
  have h := missing_filepath_behavior dbEmpty predNoFilepath rfl
  exact ⟨h.1, h.2.1⟩
